import Mathlib

set_option maxRecDepth 20000

/-!
Verification of the NewsNexusUrlScraper01 selection-and-cascade engine.

The development shallowly embeds the program's core:

* `src/cheerioScraper.ts` — `scrapeArticleContentWithCheerio`, the lightweight
  strategy;
* `src/scraper.ts` — `scrapeArticleContentWithPuppeteer`, the robust strategy,
  and `main`, the coordinator (selection filter, per-article cascade,
  persistence writes, statistics, reporting, connection lifecycle).

The external fetch-and-extract step performed by axios/cheerio respectively
puppeteer is modelled by a `FetchOutcome` input: either the text the extraction
yielded (`FetchOutcome.ok`), or the message of an error thrown inside the
`try` block (`FetchOutcome.err`).  Everything after that point — the length
threshold, the error capture, the upsert protocol, the statistics — is
translated directly from the source.
-/

/-- An `ArticleContents` row (see the `ArticleContent` model in the database
documentation): `content` plus the two nullable boolean statuses,
`null` = not attempted, `true` = succeeded, `false` = failed. -/
structure ArticleContent where
  articleId : Nat
  content : String
  scrapeStatusCheerio : Option Bool
  scrapeStatusPuppeteer : Option Bool
  deriving DecidableEq, Repr

/-- An `Article` row joined (LEFT JOIN) with its `ArticleContents` rows, as
returned by `Article.findAll({ include: [ArticleContent] })` in `main`.
`url` is nullable. -/
structure Article where
  id : Nat
  url : Option String
  contents : List ArticleContent
  deriving DecidableEq, Repr

/-- The `ScrapeResult` interface shared by both strategy files:
`{ success: boolean; content?: string; error?: string }`. -/
structure ScrapeResult where
  success : Bool
  content : Option String
  error : Option String
  deriving DecidableEq, Repr

/-- What the external fetch-and-extract step handed back inside a strategy's
`try` block: either the extracted text, or a thrown error's message (network
error, timeout, parse error — all reach the `catch` the same way). -/
inductive FetchOutcome where
  | ok (text : String)
  | err (message : String)
  deriving DecidableEq, Repr

/-- The error string both strategies build for the length check:
`Content too short (N chars, minimum 200)`. -/
def contentTooShortMsg (length : Nat) : String :=
  "Content too short (" ++ toString length ++ " chars, minimum 200)"

/-- `scrapeArticleContentWithCheerio` (cheerioScraper.ts): on a completed
extraction, the guard `if (!content || content.length < 200)` fails the
attempt with the too-short error (`!content` on a string means length zero);
otherwise the result is `{ success: true, content }`.  A thrown error is
caught and returned as `{ success: false, error: message }`. -/
def scrapeArticleContentWithCheerio (outcome : FetchOutcome) : ScrapeResult :=
  match outcome with
  | .ok text =>
    if text.length = 0 ∨ text.length < 200 then
      { success := false, content := none, error := some (contentTooShortMsg text.length) }
    else
      { success := true, content := some text, error := none }
  | .err message => { success := false, content := none, error := some message }

/-- `scrapeArticleContentWithPuppeteer` (scraper.ts): identical result
protocol — the guard `if (!content || content.length < 200)` fails the
attempt, otherwise success with the text; any error thrown inside the `try`
is caught and returned as `{ success: false, error: message }`. -/
def scrapeArticleContentWithPuppeteer (outcome : FetchOutcome) : ScrapeResult :=
  match outcome with
  | .ok text =>
    if text.length = 0 ∨ text.length < 200 then
      { success := false, content := none, error := some (contentTooShortMsg text.length) }
    else
      { success := true, content := some text, error := none }
  | .err message => { success := false, content := none, error := some message }

/-- C4: for both strategies, an extraction completing with text shorter than
200 characters yields a failure result carrying the "content too short"
error (even though the fetch succeeded), and text of length at least 200
yields success with exactly that text; instantiating at lengths 199 and 200
gives the boundary, identically in both strategies. -/
theorem content_length_boundary :
    (∀ text : String, text.length < 200 →
      scrapeArticleContentWithCheerio (FetchOutcome.ok text) =
        ⟨false, none, some (contentTooShortMsg text.length)⟩ ∧
      scrapeArticleContentWithPuppeteer (FetchOutcome.ok text) =
        ⟨false, none, some (contentTooShortMsg text.length)⟩) ∧
    (∀ text : String, 200 ≤ text.length →
      scrapeArticleContentWithCheerio (FetchOutcome.ok text) = ⟨true, some text, none⟩ ∧
      scrapeArticleContentWithPuppeteer (FetchOutcome.ok text) = ⟨true, some text, none⟩) := by
  constructor
  · intro text h
    constructor <;>
      simp [scrapeArticleContentWithCheerio, scrapeArticleContentWithPuppeteer, h]
  · intro text h
    have h0 : ¬ (text.length = 0 ∨ text.length < 200) := by omega
    constructor <;>
      simp [scrapeArticleContentWithCheerio, scrapeArticleContentWithPuppeteer, h0]

/-- A 199-character string. -/
def shortText : String := String.mk (List.replicate 199 'a')

/-- A 200-character string. -/
def longText : String := String.mk (List.replicate 200 'a')

/-- Witness for `content_length_boundary` at lengths 199 and 200. -/
theorem content_length_boundary_witness :
    shortText.length < 200 ∧ 200 ≤ longText.length ∧
    scrapeArticleContentWithCheerio (FetchOutcome.ok shortText) =
      ⟨false, none, some (contentTooShortMsg shortText.length)⟩ ∧
    scrapeArticleContentWithPuppeteer (FetchOutcome.ok shortText) =
      ⟨false, none, some (contentTooShortMsg shortText.length)⟩ ∧
    scrapeArticleContentWithCheerio (FetchOutcome.ok longText) = ⟨true, some longText, none⟩ ∧
    scrapeArticleContentWithPuppeteer (FetchOutcome.ok longText) = ⟨true, some longText, none⟩ :=
  ⟨by decide, by decide,
   (content_length_boundary.1 shortText (by decide)).1,
   (content_length_boundary.1 shortText (by decide)).2,
   (content_length_boundary.2 longText (by decide)).1,
   (content_length_boundary.2 longText (by decide)).2⟩

/-- C9: both strategies are total functions of the internal outcome (the
`try`/`catch` converts every thrown fault into a returned value, so no
exception crosses into the coordinator), and every fault — a thrown
network/timeout/parse error, or too-short content — comes back as a result
object with `success = false` and a human-readable error string present. -/
theorem strategy_faults_returned_as_results (outcome : FetchOutcome) :
    (∀ message, outcome = FetchOutcome.err message →
      scrapeArticleContentWithCheerio outcome = ⟨false, none, some message⟩ ∧
      scrapeArticleContentWithPuppeteer outcome = ⟨false, none, some message⟩) ∧
    ((scrapeArticleContentWithCheerio outcome).success = false →
      (scrapeArticleContentWithCheerio outcome).error.isSome = true) ∧
    ((scrapeArticleContentWithPuppeteer outcome).success = false →
      (scrapeArticleContentWithPuppeteer outcome).error.isSome = true) := by
  refine ⟨?_, ?_, ?_⟩
  · rintro message rfl
    exact ⟨rfl, rfl⟩
  · cases outcome with
    | ok text =>
      by_cases h : text.length = 0 ∨ text.length < 200 <;>
        simp [scrapeArticleContentWithCheerio, h]
    | err message => intro; rfl
  · cases outcome with
    | ok text =>
      by_cases h : text.length = 0 ∨ text.length < 200 <;>
        simp [scrapeArticleContentWithPuppeteer, h]
    | err message => intro; rfl

/-- Witness for `strategy_faults_returned_as_results` on a thrown fault and
on a short-content fault. -/
theorem strategy_faults_witness :
    (scrapeArticleContentWithCheerio (FetchOutcome.err "network timeout") =
      ⟨false, none, some "network timeout"⟩) ∧
    ((scrapeArticleContentWithCheerio (FetchOutcome.ok "tiny")).success = false) ∧
    ((scrapeArticleContentWithCheerio (FetchOutcome.ok "tiny")).error.isSome = true) :=
  ⟨((strategy_faults_returned_as_results (FetchOutcome.err "network timeout")).1
      "network timeout" rfl).1,
   by decide,
   (strategy_faults_returned_as_results (FetchOutcome.ok "tiny")).2.1 (by decide)⟩

/-- The two extraction strategies of the cascade. -/
inductive Strategy where
  | cheerio
  | puppeteer
  deriving DecidableEq, Repr

/-- The environment: what the external fetch-and-extract step would yield for
a given strategy and URL during this pass. -/
def Network : Type := Strategy → String → FetchOutcome

/-- A partial update of an `ArticleContents` row, as passed to Sequelize's
`record.update({...})`: each field is either left alone (`none`) or set. -/
structure UpdateFields where
  newContent : Option String
  newStatusCheerio : Option (Option Bool)
  newStatusPuppeteer : Option (Option Bool)
  deriving DecidableEq, Repr

/-- Apply a partial update to a row. -/
def applyUpdate (record : ArticleContent) (fields : UpdateFields) : ArticleContent :=
  { articleId := record.articleId
    content := fields.newContent.getD record.content
    scrapeStatusCheerio := fields.newStatusCheerio.getD record.scrapeStatusCheerio
    scrapeStatusPuppeteer := fields.newStatusPuppeteer.getD record.scrapeStatusPuppeteer }

/-- Observable side effects of a pass: an extraction attempt (a network call)
by a strategy on a URL, an `ArticleContent.create`, or a `record.update`. -/
inductive Event where
  | attempt (strategy : Strategy) (url : String)
  | createRecord (record : ArticleContent)
  | updateRecord (articleId : Nat) (fields : UpdateFields)
  deriving DecidableEq, Repr

/-- The `ScrapingStats` interface of scraper.ts. -/
structure ScrapingStats where
  total : Nat
  cheerioSuccess : Nat
  cheerioFailed : Nat
  puppeteerSuccess : Nat
  puppeteerFailed : Nat
  skipped : Nat
  deriving DecidableEq, Repr

/-- The all-zero statistics `main` starts from. -/
def initStats : ScrapingStats := ⟨0, 0, 0, 0, 0, 0⟩

/-- JavaScript truthiness of `article.url` negated: `!article.url` holds for
a missing URL and for the empty string. -/
def urlMissing (url : Option String) : Bool :=
  match url with
  | none => true
  | some s => s.length == 0

/-- The coordinator's success test `result.success && result.content`
(a present but empty `content` string would be falsy). -/
def resultTruthy (result : ScrapeResult) : Bool :=
  result.success &&
    (match result.content with
     | some text => text.length != 0
     | none => false)

/-- `needsCheerio = !existingContent || existingContent.scrapeStatusCheerio === null`. -/
def needsCheerioCheck : Option ArticleContent → Bool
  | none => true
  | some record => record.scrapeStatusCheerio == none

/-- `needsPuppeteer = existingContent && scrapeStatusCheerio === false &&
scrapeStatusPuppeteer === null`. -/
def needsPuppeteerCheck : Option ArticleContent → Bool
  | none => false
  | some record =>
    record.scrapeStatusCheerio == some false && record.scrapeStatusPuppeteer == none

/-- Replace the article's first `ArticleContents` row (the only row the
coordinator reads and writes); for an article with no row this is the row
`ArticleContent.create` adds. -/
def replaceHead (article : Article) (record : ArticleContent) : Article :=
  { article with contents := record :: article.contents.tail }

/-- The `needsCheerio` branch of the per-article loop: attempt Cheerio; on
success upsert `{content, scrapeStatusCheerio: true}`; on failure upsert
`{scrapeStatusCheerio: false}` (create carries empty content), then cascade
to Puppeteer on the same URL and record that outcome through
`existingContent || ArticleContent.findOne({where: {articleId}})`. -/
def processCheerioBranch (network : Network) (article : Article) (stats : ScrapingStats)
    (url : String) (existingContent : Option ArticleContent) :
    Article × List Event × ScrapingStats :=
  let result := scrapeArticleContentWithCheerio (network .cheerio url)
  if resultTruthy result then
    match existingContent with
    | some record =>
      let fields : UpdateFields := ⟨result.content, some (some true), none⟩
      (replaceHead article (applyUpdate record fields),
       [Event.attempt .cheerio url, Event.updateRecord record.articleId fields],
       { stats with cheerioSuccess := stats.cheerioSuccess + 1 })
    | none =>
      let newRecord : ArticleContent := ⟨article.id, result.content.getD "", some true, none⟩
      (replaceHead article newRecord,
       [Event.attempt .cheerio url, Event.createRecord newRecord],
       { stats with cheerioSuccess := stats.cheerioSuccess + 1 })
  else
    let afterFail :=
      match existingContent with
      | some record =>
        let fields : UpdateFields := ⟨none, some (some false), none⟩
        (replaceHead article (applyUpdate record fields),
         [Event.attempt .cheerio url, Event.updateRecord record.articleId fields])
      | none =>
        let newRecord : ArticleContent := ⟨article.id, "", some false, none⟩
        (replaceHead article newRecord,
         [Event.attempt .cheerio url, Event.createRecord newRecord])
    let statsAfterFail := { stats with cheerioFailed := stats.cheerioFailed + 1 }
    let puppeteerResult := scrapeArticleContentWithPuppeteer (network .puppeteer url)
    match afterFail.1.contents.head? with
    | some contentRecord =>
      if resultTruthy puppeteerResult then
        let fields : UpdateFields := ⟨puppeteerResult.content, none, some (some true)⟩
        (replaceHead afterFail.1 (applyUpdate contentRecord fields),
         afterFail.2 ++ [Event.attempt .puppeteer url,
           Event.updateRecord contentRecord.articleId fields],
         { statsAfterFail with puppeteerSuccess := statsAfterFail.puppeteerSuccess + 1 })
      else
        let fields : UpdateFields := ⟨none, none, some (some false)⟩
        (replaceHead afterFail.1 (applyUpdate contentRecord fields),
         afterFail.2 ++ [Event.attempt .puppeteer url,
           Event.updateRecord contentRecord.articleId fields],
         { statsAfterFail with puppeteerFailed := statsAfterFail.puppeteerFailed + 1 })
    | none =>
      (afterFail.1, afterFail.2 ++ [Event.attempt .puppeteer url],
       if resultTruthy puppeteerResult then
         { statsAfterFail with puppeteerSuccess := statsAfterFail.puppeteerSuccess + 1 }
       else
         { statsAfterFail with puppeteerFailed := statsAfterFail.puppeteerFailed + 1 })

/-- The `needsPuppeteer` branch: Cheerio failed in an earlier pass, so only
Puppeteer is attempted; on success update `{content, scrapeStatusPuppeteer:
true}`, on failure update `{scrapeStatusPuppeteer: false}`. -/
def processPuppeteerBranch (network : Network) (article : Article) (stats : ScrapingStats)
    (url : String) (existingContent : Option ArticleContent) :
    Article × List Event × ScrapingStats :=
  match existingContent with
  | some record =>
    let result := scrapeArticleContentWithPuppeteer (network .puppeteer url)
    if resultTruthy result then
      let fields : UpdateFields := ⟨result.content, none, some (some true)⟩
      (replaceHead article (applyUpdate record fields),
       [Event.attempt .puppeteer url, Event.updateRecord record.articleId fields],
       { stats with puppeteerSuccess := stats.puppeteerSuccess + 1 })
    else
      let fields : UpdateFields := ⟨none, none, some (some false)⟩
      (replaceHead article (applyUpdate record fields),
       [Event.attempt .puppeteer url, Event.updateRecord record.articleId fields],
       { stats with puppeteerFailed := stats.puppeteerFailed + 1 })
  | none => (article, [], stats)

/-- One iteration of the coordinator's per-article loop: skip (no URL) or
dispatch on `needsCheerio` / `needsPuppeteer`, with
`existingContent = ArticleContents[0]` when present. -/
def processArticle (network : Network) (article : Article) (stats : ScrapingStats) :
    Article × List Event × ScrapingStats :=
  if urlMissing article.url then
    (article, [], { stats with skipped := stats.skipped + 1 })
  else
    let url := article.url.getD ""
    let existingContent := article.contents.head?
    if needsCheerioCheck existingContent then
      processCheerioBranch network article stats url existingContent
    else if needsPuppeteerCheck existingContent then
      processPuppeteerBranch network article stats url existingContent
    else
      (article, [], stats)

/-- The selection filter of `main` (`articlesToScrape.filter(...)`): include
when no content row exists; exclude when both statuses are `false`; include
when Cheerio is unattempted, or failed with Puppeteer unattempted; exclude
otherwise. -/
def articleNeedsScraping (article : Article) : Bool :=
  match article.contents with
  | [] => true
  | record :: _ =>
    if record.scrapeStatusCheerio == some false
        && record.scrapeStatusPuppeteer == some false then
      false
    else if record.scrapeStatusCheerio == none then
      true
    else if record.scrapeStatusCheerio == some false
        && record.scrapeStatusPuppeteer == none then
      true
    else
      false

/-- The pass loop over the population: a selected article is processed (its
row state, events and statistics evolve), an unselected article is untouched. -/
def passArticles (network : Network) :
    List Article → ScrapingStats → List Article × List Event × ScrapingStats
  | [], stats => ([], [], stats)
  | article :: rest, stats =>
    if articleNeedsScraping article then
      let step := processArticle network article stats
      let tailStep := passArticles network rest step.2.2
      (step.1 :: tailStep.1, step.2.1 ++ tailStep.2.1, tailStep.2.2)
    else
      let tailStep := passArticles network rest stats
      (article :: tailStep.1, tailStep.2.1, tailStep.2.2)

/-- `(totalSuccess / stats.total) * 100` over the rationals. -/
def successRate (stats : ScrapingStats) : ℚ :=
  ((stats.cheerioSuccess : ℚ) + (stats.puppeteerSuccess : ℚ)) / (stats.total : ℚ) * 100

/-- `.toFixed(1)`: round to one decimal place. -/
def toFixed1 (q : ℚ) : ℚ := (round (q * 10) : ℚ) / 10

/-- Outcome of one coordinator run: the population with its updated rows, the
attempt/create/update events in order, the final statistics, and the reported
success rate — `none` when the run exited early as a no-op (`total === 0`),
so the division is never evaluated. -/
structure RunResult where
  population : List Article
  events : List Event
  stats : ScrapingStats
  rateReport : Option ℚ

/-- One full run of `main`'s pass: filter the population, set `stats.total`,
return early when no article needs scraping, otherwise process every selected
article in order and report the overall success rate. -/
def runPass (network : Network) (population : List Article) : RunResult :=
  let filtered := population.filter articleNeedsScraping
  let stats0 := { initStats with total := filtered.length }
  if filtered.length = 0 then
    { population := population, events := [], stats := stats0, rateReport := none }
  else
    let result := passArticles network population stats0
    { population := result.1, events := result.2.1, stats := result.2.2,
      rateReport := some (toFixed1 (successRate result.2.2)) }

/-- Characterization of the selection filter: an article is selected exactly
when it has no content row, or Cheerio is unattempted, or Cheerio failed with
Puppeteer unattempted. -/
lemma articleNeedsScraping_iff (article : Article) :
    articleNeedsScraping article = true ↔
      article.contents.head? = none ∨
      ∃ record, article.contents.head? = some record ∧
        (record.scrapeStatusCheerio = none ∨
         (record.scrapeStatusCheerio = some false ∧
          record.scrapeStatusPuppeteer = none)) := by
  obtain ⟨i, u, contents⟩ := article
  cases contents with
  | nil => simp [articleNeedsScraping]
  | cons record rest =>
    obtain ⟨aid, c, sc, sp⟩ := record
    cases sc with
    | none => simp [articleNeedsScraping]
    | some bc =>
      cases sp with
      | none => cases bc <;> simp [articleNeedsScraping]
      | some bp => cases bc <;> cases bp <;> simp [articleNeedsScraping]

/-- C1: the selector includes an article exactly when its content row is
absent, or its Cheerio status is NotAttempted (null), or Cheerio Failed
(false) with Puppeteer NotAttempted (null); a row with Cheerio Succeeded, and
a row with both statuses Failed, is excluded. -/
theorem selector_includes_exactly_unresolved (article : Article) :
    (articleNeedsScraping article = true ↔
      article.contents.head? = none ∨
      ∃ record, article.contents.head? = some record ∧
        (record.scrapeStatusCheerio = none ∨
         (record.scrapeStatusCheerio = some false ∧
          record.scrapeStatusPuppeteer = none))) ∧
    (∀ record, article.contents.head? = some record →
      record.scrapeStatusCheerio = some true → articleNeedsScraping article = false) ∧
    (∀ record, article.contents.head? = some record →
      record.scrapeStatusCheerio = some false →
      record.scrapeStatusPuppeteer = some false →
      articleNeedsScraping article = false) := by
  refine ⟨articleNeedsScraping_iff article, ?_, ?_⟩
  · intro record hhead hs
    cases hna : articleNeedsScraping article with
    | false => rfl
    | true =>
      rcases (articleNeedsScraping_iff article).mp hna with h | ⟨r, hr, hcase⟩
      · rw [hhead] at h; exact Option.noConfusion h
      · rw [hhead] at hr
        injection hr with hr'
        subst hr'
        rcases hcase with h1 | ⟨h1, _⟩
        · rw [hs] at h1; exact Option.noConfusion h1
        · rw [hs] at h1
          simp at h1
  · intro record hhead hs hp
    cases hna : articleNeedsScraping article with
    | false => rfl
    | true =>
      rcases (articleNeedsScraping_iff article).mp hna with h | ⟨r, hr, hcase⟩
      · rw [hhead] at h; exact Option.noConfusion h
      · rw [hhead] at hr
        injection hr with hr'
        subst hr'
        rcases hcase with h1 | ⟨_, h2⟩
        · rw [hs] at h1; exact Option.noConfusion h1
        · rw [hp] at h2; exact Option.noConfusion h2

/-- Witness for `selector_includes_exactly_unresolved`: an article with no
row is included; rows with Cheerio Succeeded, respectively both Failed, are
excluded. -/
theorem selector_witness :
    articleNeedsScraping ⟨1, some "u", []⟩ = true ∧
    articleNeedsScraping ⟨2, some "u", [⟨2, "body", some true, none⟩]⟩ = false ∧
    articleNeedsScraping ⟨3, some "u", [⟨3, "", some false, some false⟩]⟩ = false :=
  ⟨(selector_includes_exactly_unresolved ⟨1, some "u", []⟩).1.mpr (Or.inl rfl),
   (selector_includes_exactly_unresolved ⟨2, some "u", [⟨2, "body", some true, none⟩]⟩).2.1
     ⟨2, "body", some true, none⟩ rfl rfl,
   (selector_includes_exactly_unresolved ⟨3, some "u", [⟨3, "", some false, some false⟩]⟩).2.2
     ⟨3, "", some false, some false⟩ rfl rfl rfl⟩

/-- The coordinator's truthiness test agrees with the `success` flag on every
Cheerio result (a successful result always carries non-empty content). -/
lemma resultTruthy_cheerio (outcome : FetchOutcome) :
    resultTruthy (scrapeArticleContentWithCheerio outcome) =
      (scrapeArticleContentWithCheerio outcome).success := by
  cases outcome with
  | ok text =>
    by_cases h : text.length = 0 ∨ text.length < 200
    · simp [scrapeArticleContentWithCheerio, resultTruthy, h]
    · have hne : text.length ≠ 0 := by omega
      have hge : ¬ text.length < 200 := by omega
      simp [scrapeArticleContentWithCheerio, resultTruthy, h, hne, hge]
  | err message => rfl

/-- The coordinator's truthiness test agrees with the `success` flag on every
Puppeteer result. -/
lemma resultTruthy_puppeteer (outcome : FetchOutcome) :
    resultTruthy (scrapeArticleContentWithPuppeteer outcome) =
      (scrapeArticleContentWithPuppeteer outcome).success := by
  cases outcome with
  | ok text =>
    by_cases h : text.length = 0 ∨ text.length < 200
    · simp [scrapeArticleContentWithPuppeteer, resultTruthy, h]
    · have hne : text.length ≠ 0 := by omega
      have hge : ¬ text.length < 200 := by omega
      simp [scrapeArticleContentWithPuppeteer, resultTruthy, h, hne, hge]
  | err message => rfl

/-- A successful Cheerio result carries text of at least 200 characters. -/
lemma cheerio_success_length (outcome : FetchOutcome) (text : String)
    (h : scrapeArticleContentWithCheerio outcome = ⟨true, some text, none⟩) :
    200 ≤ text.length := by
  cases outcome with
  | ok t =>
    by_cases hg : t.length = 0 ∨ t.length < 200
    · simp [scrapeArticleContentWithCheerio, hg] at h
    · simp [scrapeArticleContentWithCheerio, hg] at h
      subst h
      omega
  | err m => simp [scrapeArticleContentWithCheerio] at h

/-- A successful Puppeteer result carries text of at least 200 characters. -/
lemma puppeteer_success_length (outcome : FetchOutcome) (text : String)
    (h : scrapeArticleContentWithPuppeteer outcome = ⟨true, some text, none⟩) :
    200 ≤ text.length := by
  cases outcome with
  | ok t =>
    by_cases hg : t.length = 0 ∨ t.length < 200
    · simp [scrapeArticleContentWithPuppeteer, hg] at h
    · simp [scrapeArticleContentWithPuppeteer, hg] at h
      subst h
      omega
  | err m => simp [scrapeArticleContentWithPuppeteer] at h

/-- Extraction attempts (network calls), in order, among a pass's events. -/
def attemptsOf : List Event → List (Strategy × String)
  | [] => []
  | Event.attempt strategy url :: rest => (strategy, url) :: attemptsOf rest
  | Event.createRecord _ :: rest => attemptsOf rest
  | Event.updateRecord _ _ :: rest => attemptsOf rest

/-- With a usable URL and `needsCheerio` true, the loop body runs the Cheerio
branch. -/
lemma processArticle_eq_cheerio (network : Network) (article : Article)
    (stats : ScrapingStats) (url : String)
    (hurl : article.url = some url) (hlen : url.length ≠ 0)
    (hneeds : needsCheerioCheck article.contents.head? = true) :
    processArticle network article stats =
      processCheerioBranch network article stats url article.contents.head? := by
  have hmiss : urlMissing (some url) = false := by simp [urlMissing, hlen]
  simp [processArticle, hurl, hmiss, hneeds]

/-- With a usable URL, `needsCheerio` false and `needsPuppeteer` true, the
loop body runs the Puppeteer-only branch. -/
lemma processArticle_eq_puppeteer (network : Network) (article : Article)
    (stats : ScrapingStats) (url : String)
    (hurl : article.url = some url) (hlen : url.length ≠ 0)
    (hnc : needsCheerioCheck article.contents.head? = false)
    (hnp : needsPuppeteerCheck article.contents.head? = true) :
    processArticle network article stats =
      processPuppeteerBranch network article stats url article.contents.head? := by
  have hmiss : urlMissing (some url) = false := by simp [urlMissing, hlen]
  simp [processArticle, hurl, hmiss, hnc, hnp]

/-- C2: for a selected article needing a lightweight attempt, a successful
Cheerio attempt is the only network call of the iteration (the robust
strategy is not invoked); a failed Cheerio attempt is followed immediately,
within the same iteration, by a Puppeteer attempt on the same URL. -/
theorem cascade_same_pass (network : Network) (article : Article) (stats : ScrapingStats)
    (url : String) (hsel : articleNeedsScraping article = true)
    (hurl : article.url = some url) (hlen : url.length ≠ 0)
    (hneeds : needsCheerioCheck article.contents.head? = true) :
    ((scrapeArticleContentWithCheerio (network .cheerio url)).success = true →
      attemptsOf (processArticle network article stats).2.1 = [(Strategy.cheerio, url)]) ∧
    ((scrapeArticleContentWithCheerio (network .cheerio url)).success = false →
      attemptsOf (processArticle network article stats).2.1 =
        [(Strategy.cheerio, url), (Strategy.puppeteer, url)]) := by
  rw [processArticle_eq_cheerio network article stats url hurl hlen hneeds]
  constructor
  · intro hsucc
    have ht : resultTruthy (scrapeArticleContentWithCheerio (network .cheerio url)) = true := by
      rw [resultTruthy_cheerio]; exact hsucc
    cases hhead : article.contents.head? with
    | none => simp [processCheerioBranch, ht, attemptsOf]
    | some record => simp [processCheerioBranch, ht, attemptsOf]
  · intro hfail
    have ht : resultTruthy (scrapeArticleContentWithCheerio (network .cheerio url)) = false := by
      rw [resultTruthy_cheerio]; exact hfail
    cases hhead : article.contents.head? with
    | none =>
      cases htp : resultTruthy (scrapeArticleContentWithPuppeteer (network .puppeteer url)) <;>
        simp [processCheerioBranch, ht, htp, replaceHead, attemptsOf]
    | some record =>
      cases htp : resultTruthy (scrapeArticleContentWithPuppeteer (network .puppeteer url)) <;>
        simp [processCheerioBranch, ht, htp, replaceHead, attemptsOf]

/-- A network where every fetch yields the 200-character text. -/
def networkAllOk : Network := fun _ _ => FetchOutcome.ok longText

/-- A network where every fetch throws. -/
def networkAllErr : Network := fun _ _ => FetchOutcome.err "connection refused"

/-- Witness for `cascade_same_pass`: on a fresh article, a succeeding network
yields one Cheerio call only; a failing network yields the Cheerio call
followed by the Puppeteer call on the same URL. -/
theorem cascade_same_pass_witness :
    articleNeedsScraping ⟨1, some "u", []⟩ = true ∧
    ("u".length ≠ 0) ∧
    needsCheerioCheck (⟨1, some "u", []⟩ : Article).contents.head? = true ∧
    ((scrapeArticleContentWithCheerio (networkAllOk .cheerio "u")).success = true ∧
      attemptsOf (processArticle networkAllOk ⟨1, some "u", []⟩ initStats).2.1 =
        [(Strategy.cheerio, "u")]) ∧
    ((scrapeArticleContentWithCheerio (networkAllErr .cheerio "u")).success = false ∧
      attemptsOf (processArticle networkAllErr ⟨1, some "u", []⟩ initStats).2.1 =
        [(Strategy.cheerio, "u"), (Strategy.puppeteer, "u")]) :=
  ⟨by decide, by decide, rfl,
   ⟨by decide,
    (cascade_same_pass networkAllOk ⟨1, some "u", []⟩ initStats "u"
      (by decide) rfl (by decide) rfl).1 (by decide)⟩,
   ⟨by decide,
    (cascade_same_pass networkAllErr ⟨1, some "u", []⟩ initStats "u"
      (by decide) rfl (by decide) rfl).2 (by decide)⟩⟩

/-- C6: for an article with no content row whose Cheerio attempt completes, a
row is created either way: on success with the extracted text, Cheerio
Succeeded and Puppeteer NotAttempted; on failure with empty content, Cheerio
Failed and Puppeteer NotAttempted. -/
theorem first_attempt_creates_record (network : Network) (article : Article)
    (stats : ScrapingStats) (url : String)
    (hurl : article.url = some url) (hlen : url.length ≠ 0)
    (hnone : article.contents = []) :
    (∀ text, scrapeArticleContentWithCheerio (network .cheerio url) = ⟨true, some text, none⟩ →
      ∃ rest, (processArticle network article stats).2.1 =
        Event.attempt .cheerio url ::
          Event.createRecord ⟨article.id, text, some true, none⟩ :: rest) ∧
    ((scrapeArticleContentWithCheerio (network .cheerio url)).success = false →
      ∃ rest, (processArticle network article stats).2.1 =
        Event.attempt .cheerio url ::
          Event.createRecord ⟨article.id, "", some false, none⟩ :: rest) := by
  have hhead : article.contents.head? = none := by rw [hnone]; rfl
  have hneeds : needsCheerioCheck article.contents.head? = true := by rw [hhead]; rfl
  rw [processArticle_eq_cheerio network article stats url hurl hlen hneeds, hhead]
  constructor
  · intro text hres
    have hlen200 := cheerio_success_length _ _ hres
    have hne : text.length ≠ 0 := by omega
    refine ⟨[], ?_⟩
    simp [processCheerioBranch, hres, resultTruthy, hne]
  · intro hfail
    have ht : resultTruthy (scrapeArticleContentWithCheerio (network .cheerio url)) = false := by
      rw [resultTruthy_cheerio]; exact hfail
    cases htp : resultTruthy (scrapeArticleContentWithPuppeteer (network .puppeteer url)) with
    | true =>
      refine ⟨[Event.attempt .puppeteer url,
        Event.updateRecord article.id
          ⟨(scrapeArticleContentWithPuppeteer (network .puppeteer url)).content, none,
            some (some true)⟩], ?_⟩
      simp [processCheerioBranch, ht, htp, replaceHead]
    | false =>
      refine ⟨[Event.attempt .puppeteer url,
        Event.updateRecord article.id ⟨none, none, some (some false)⟩], ?_⟩
      simp [processCheerioBranch, ht, htp, replaceHead]

/-- Witness for `first_attempt_creates_record` with a succeeding and a
failing network on a rowless article. -/
theorem first_attempt_creates_record_witness :
    scrapeArticleContentWithCheerio (networkAllOk .cheerio "u") = ⟨true, some longText, none⟩ ∧
    (∃ rest, (processArticle networkAllOk ⟨1, some "u", []⟩ initStats).2.1 =
      Event.attempt .cheerio "u" ::
        Event.createRecord ⟨1, longText, some true, none⟩ :: rest) ∧
    (scrapeArticleContentWithCheerio (networkAllErr .cheerio "u")).success = false ∧
    (∃ rest, (processArticle networkAllErr ⟨1, some "u", []⟩ initStats).2.1 =
      Event.attempt .cheerio "u" ::
        Event.createRecord ⟨1, "", some false, none⟩ :: rest) :=
  ⟨by decide,
   (first_attempt_creates_record networkAllOk ⟨1, some "u", []⟩ initStats "u"
     rfl (by decide) rfl).1 longText (by decide),
   by decide,
   (first_attempt_creates_record networkAllErr ⟨1, some "u", []⟩ initStats "u"
     rfl (by decide) rfl).2 (by decide)⟩

/-- C7: for an article whose row shows Cheerio Failed and Puppeteer
NotAttempted, the iteration attempts only Puppeteer; on success the row's
content and Puppeteer status change while the Cheerio status stays Failed;
on failure only the Puppeteer status is set to Failed, content and Cheerio
status untouched. -/
theorem robust_only_pass_frame (network : Network) (article : Article)
    (stats : ScrapingStats) (url : String)
    (record : ArticleContent) (rest : List ArticleContent)
    (hurl : article.url = some url) (hlen : url.length ≠ 0)
    (hcont : article.contents = record :: rest)
    (hch : record.scrapeStatusCheerio = some false)
    (hpu : record.scrapeStatusPuppeteer = none) :
    attemptsOf (processArticle network article stats).2.1 = [(Strategy.puppeteer, url)] ∧
    (∀ text,
      scrapeArticleContentWithPuppeteer (network .puppeteer url) = ⟨true, some text, none⟩ →
      (processArticle network article stats).1.contents =
        ⟨record.articleId, text, some false, some true⟩ :: rest) ∧
    ((scrapeArticleContentWithPuppeteer (network .puppeteer url)).success = false →
      (processArticle network article stats).1.contents =
        ⟨record.articleId, record.content, some false, some false⟩ :: rest) := by
  have hhead : article.contents.head? = some record := by rw [hcont]; rfl
  have hnc : needsCheerioCheck article.contents.head? = false := by
    rw [hhead]; simp [needsCheerioCheck, hch]
  have hnp : needsPuppeteerCheck article.contents.head? = true := by
    rw [hhead]; simp [needsPuppeteerCheck, hch, hpu]
  rw [processArticle_eq_puppeteer network article stats url hurl hlen hnc hnp, hhead]
  refine ⟨?_, ?_, ?_⟩
  · cases htp : resultTruthy (scrapeArticleContentWithPuppeteer (network .puppeteer url)) <;>
      simp [processPuppeteerBranch, htp, attemptsOf]
  · intro text hres
    have hlen200 := puppeteer_success_length _ _ hres
    have hne : text.length ≠ 0 := by omega
    simp [processPuppeteerBranch, hres, resultTruthy, hne, replaceHead, applyUpdate, hcont, hch]
  · intro hfail
    have ht : resultTruthy (scrapeArticleContentWithPuppeteer (network .puppeteer url)) = false := by
      rw [resultTruthy_puppeteer]; exact hfail
    simp [processPuppeteerBranch, ht, replaceHead, applyUpdate, hcont, hch, hpu]

/-- Witness for `robust_only_pass_frame` on a row with Cheerio Failed and
Puppeteer NotAttempted, under a succeeding and a failing network. -/
theorem robust_only_pass_frame_witness :
    attemptsOf (processArticle networkAllErr
        ⟨1, some "u", [⟨1, "old", some false, none⟩]⟩ initStats).2.1 =
      [(Strategy.puppeteer, "u")] ∧
    (processArticle networkAllOk
        ⟨1, some "u", [⟨1, "old", some false, none⟩]⟩ initStats).1.contents =
      [⟨1, longText, some false, some true⟩] ∧
    (processArticle networkAllErr
        ⟨1, some "u", [⟨1, "old", some false, none⟩]⟩ initStats).1.contents =
      [⟨1, "old", some false, some false⟩] :=
  ⟨(robust_only_pass_frame networkAllErr ⟨1, some "u", [⟨1, "old", some false, none⟩]⟩
      initStats "u" ⟨1, "old", some false, none⟩ [] rfl (by decide) rfl rfl rfl).1,
   (robust_only_pass_frame networkAllOk ⟨1, some "u", [⟨1, "old", some false, none⟩]⟩
      initStats "u" ⟨1, "old", some false, none⟩ [] rfl (by decide) rfl rfl rfl).2.1
     longText (by decide),
   (robust_only_pass_frame networkAllErr ⟨1, some "u", [⟨1, "old", some false, none⟩]⟩
      initStats "u" ⟨1, "old", some false, none⟩ [] rfl (by decide) rfl rfl rfl).2.2
     (by decide)⟩

/-- A missing URL means `none` or the empty string; otherwise the URL is a
non-empty string. -/
lemma urlMissing_false (url : Option String) (h : urlMissing url = false) :
    ∃ s, url = some s ∧ s.length ≠ 0 := by
  cases url with
  | none => cases h
  | some s =>
    refine ⟨s, rfl, ?_⟩
    simpa [urlMissing] using h

/-- A selected article needs the Cheerio attempt or the Puppeteer-only
attempt (the coordinator's two branches are exhaustive on the selection). -/
lemma selected_branch (article : Article) (hsel : articleNeedsScraping article = true) :
    needsCheerioCheck article.contents.head? = true ∨
    needsPuppeteerCheck article.contents.head? = true := by
  obtain ⟨i, u, contents⟩ := article
  cases contents with
  | nil => left; rfl
  | cons record rest =>
    obtain ⟨aid, c, sc, sp⟩ := record
    cases sc with
    | none => left; rfl
    | some bc =>
      cases bc with
      | false =>
        cases sp with
        | none => right; rfl
        | some bp =>
          cases bp <;> exact absurd hsel (by simp [articleNeedsScraping])
      | true => exact absurd hsel (by simp [articleNeedsScraping])

/-- `needsPuppeteer` implies `needsCheerio` is false (the branches are
mutually exclusive). -/
lemma needsPuppeteer_not_cheerio (oc : Option ArticleContent)
    (hp : needsPuppeteerCheck oc = true) : needsCheerioCheck oc = false := by
  cases oc with
  | none => cases hp
  | some record =>
    simp [needsPuppeteerCheck] at hp
    simp [needsCheerioCheck, hp.1]

/-- Each selected article adds exactly one to
`skipped + cheerioSuccess + puppeteerSuccess + puppeteerFailed` and leaves
`total` unchanged. -/
lemma processArticle_stats (network : Network) (article : Article) (stats : ScrapingStats)
    (hsel : articleNeedsScraping article = true) :
    (processArticle network article stats).2.2.skipped +
      (processArticle network article stats).2.2.cheerioSuccess +
      (processArticle network article stats).2.2.puppeteerSuccess +
      (processArticle network article stats).2.2.puppeteerFailed =
      stats.skipped + stats.cheerioSuccess + stats.puppeteerSuccess +
        stats.puppeteerFailed + 1 ∧
    (processArticle network article stats).2.2.total = stats.total := by
  cases hmiss : urlMissing article.url with
  | true =>
    simp [processArticle, hmiss]
    omega
  | false =>
    obtain ⟨url, hurl, hlen⟩ := urlMissing_false article.url hmiss
    rcases selected_branch article hsel with hc | hp
    · rw [processArticle_eq_cheerio network article stats url hurl hlen hc]
      cases ht : resultTruthy (scrapeArticleContentWithCheerio (network .cheerio url)) with
      | true =>
        cases hhead : article.contents.head? with
        | none => simp [processCheerioBranch, ht] <;> omega
        | some record => simp [processCheerioBranch, ht] <;> omega
      | false =>
        cases hhead : article.contents.head? with
        | none =>
          cases htp :
              resultTruthy (scrapeArticleContentWithPuppeteer (network .puppeteer url)) <;>
            simp [processCheerioBranch, ht, htp, replaceHead] <;> omega
        | some record =>
          cases htp :
              resultTruthy (scrapeArticleContentWithPuppeteer (network .puppeteer url)) <;>
            simp [processCheerioBranch, ht, htp, replaceHead] <;> omega
    · have hc := needsPuppeteer_not_cheerio _ hp
      rw [processArticle_eq_puppeteer network article stats url hurl hlen hc hp]
      cases hhead : article.contents.head? with
      | none => rw [hhead] at hp; cases hp
      | some record =>
        cases htp :
            resultTruthy (scrapeArticleContentWithPuppeteer (network .puppeteer url)) <;>
          simp [processPuppeteerBranch, htp] <;> omega

/-- Over a pass, the outcome counters gain one unit per selected article and
`total` is untouched. -/
lemma passArticles_stats (network : Network) (articles : List Article) :
    ∀ stats : ScrapingStats,
      (passArticles network articles stats).2.2.skipped +
        (passArticles network articles stats).2.2.cheerioSuccess +
        (passArticles network articles stats).2.2.puppeteerSuccess +
        (passArticles network articles stats).2.2.puppeteerFailed =
        stats.skipped + stats.cheerioSuccess + stats.puppeteerSuccess +
          stats.puppeteerFailed + (articles.filter articleNeedsScraping).length ∧
      (passArticles network articles stats).2.2.total = stats.total := by
  induction articles with
  | nil => intro stats; simp [passArticles]
  | cons article rest ih =>
    intro stats
    cases hsel : articleNeedsScraping article with
    | true =>
      have hstep := processArticle_stats network article stats hsel
      have hrest := ih (processArticle network article stats).2.2
      simp [passArticles, hsel]
      omega
    | false =>
      have hrest := ih stats
      simp [passArticles, hsel]
      omega

/-- C10: at the end of every run, each selected article accounts for exactly
one terminal outcome, so
`total = skipped + cheerioSuccess + puppeteerSuccess + puppeteerFailed`
(`cheerioFailed` counts in addition to the Puppeteer outcome of the cascade,
not instead of it). -/
theorem stats_outcome_partition (network : Network) (population : List Article) :
    (runPass network population).stats.total =
      (runPass network population).stats.skipped +
        (runPass network population).stats.cheerioSuccess +
        (runPass network population).stats.puppeteerSuccess +
        (runPass network population).stats.puppeteerFailed := by
  by_cases h : (population.filter articleNeedsScraping).length = 0
  · simp [runPass, h, initStats]
  · have hstats := passArticles_stats network population
      ⟨(population.filter articleNeedsScraping).length, 0, 0, 0, 0, 0⟩
    simp at hstats
    simp [runPass, h, initStats]
    omega

/-- C8: a run that selects no article returns early as a no-op, so the rate
(and its division by `total`) is never produced; a run with selected
articles reports `(cheerioSuccess + puppeteerSuccess) / total * 100` rounded
to one decimal place; for `total = 4`, `cheerioSuccess = 2`,
`puppeteerSuccess = 1` the reported rate is `75.0`. -/
theorem success_rate_reporting (network : Network) (population : List Article) :
    ((population.filter articleNeedsScraping).length = 0 →
      (runPass network population).rateReport = none) ∧
    ((population.filter articleNeedsScraping).length ≠ 0 →
      (runPass network population).rateReport =
        some (toFixed1 (successRate (runPass network population).stats))) ∧
    toFixed1 (successRate ⟨4, 2, 2, 1, 1, 0⟩) = 75 := by
  refine ⟨?_, ?_, ?_⟩
  · intro h
    simp [runPass, h]
  · intro h
    simp [runPass, h]
  · have h1 : successRate ⟨4, 2, 2, 1, 1, 0⟩ = 75 := by
      norm_num [successRate]
    rw [h1]
    have h2 : ((75 : ℚ) * 10) = ((750 : ℤ) : ℚ) := by norm_num
    rw [toFixed1, h2, round_intCast]
    norm_num

/-- Witness for `success_rate_reporting`: an empty population is the no-op
run; a one-article population produces the formula-shaped report. -/
theorem success_rate_reporting_witness :
    ((([] : List Article).filter articleNeedsScraping).length = 0 ∧
      (runPass networkAllErr []).rateReport = none) ∧
    ((([⟨1, some "u", []⟩] : List Article).filter articleNeedsScraping).length ≠ 0 ∧
      (runPass networkAllErr [⟨1, some "u", []⟩]).rateReport =
        some (toFixed1 (successRate (runPass networkAllErr [⟨1, some "u", []⟩]).stats))) :=
  ⟨⟨by decide, (success_rate_reporting networkAllErr []).1 (by decide)⟩,
   ⟨by decide,
    (success_rate_reporting networkAllErr [⟨1, some "u", []⟩]).2.1 (by decide)⟩⟩

/-- The claim's notion of a fully resolved article: its first content row
shows lightweight success, robust success, or both strategies failed. -/
def resolvedRecord (article : Article) : Bool :=
  match article.contents.head? with
  | none => false
  | some record =>
    record.scrapeStatusCheerio == some true ||
    record.scrapeStatusPuppeteer == some true ||
    (record.scrapeStatusCheerio == some false &&
     record.scrapeStatusPuppeteer == some false)

/-- After processing a selected article that has a usable URL, its first
content row exists and its Cheerio status is no longer null. -/
lemma processArticle_sets_cheerio (network : Network) (article : Article)
    (stats : ScrapingStats) (hsel : articleNeedsScraping article = true)
    (hmiss : urlMissing article.url = false) :
    ∃ record rest, (processArticle network article stats).1.contents = record :: rest ∧
      record.scrapeStatusCheerio ≠ none := by
  obtain ⟨url, hurl, hlen⟩ := urlMissing_false article.url hmiss
  rcases selected_branch article hsel with hc | hp
  · rw [processArticle_eq_cheerio network article stats url hurl hlen hc]
    cases ht : resultTruthy (scrapeArticleContentWithCheerio (network .cheerio url)) with
    | true =>
      cases hhead : article.contents.head? with
      | none =>
        refine ⟨⟨article.id,
          (scrapeArticleContentWithCheerio (network .cheerio url)).content.getD "",
          some true, none⟩, article.contents.tail, ?_, by simp⟩
        simp [processCheerioBranch, ht, replaceHead]
      | some record =>
        refine ⟨applyUpdate record
          ⟨(scrapeArticleContentWithCheerio (network .cheerio url)).content,
            some (some true), none⟩, article.contents.tail, ?_, by simp [applyUpdate]⟩
        simp [processCheerioBranch, ht, replaceHead]
    | false =>
      cases hhead : article.contents.head? with
      | none =>
        cases htp : resultTruthy (scrapeArticleContentWithPuppeteer (network .puppeteer url)) with
        | true =>
          refine ⟨applyUpdate ⟨article.id, "", some false, none⟩
            ⟨(scrapeArticleContentWithPuppeteer (network .puppeteer url)).content,
              none, some (some true)⟩, article.contents.tail, ?_, by simp [applyUpdate]⟩
          simp [processCheerioBranch, ht, htp, replaceHead]
        | false =>
          refine ⟨applyUpdate ⟨article.id, "", some false, none⟩
            ⟨none, none, some (some false)⟩, article.contents.tail, ?_, by simp [applyUpdate]⟩
          simp [processCheerioBranch, ht, htp, replaceHead]
      | some record =>
        cases htp : resultTruthy (scrapeArticleContentWithPuppeteer (network .puppeteer url)) with
        | true =>
          refine ⟨applyUpdate (applyUpdate record ⟨none, some (some false), none⟩)
            ⟨(scrapeArticleContentWithPuppeteer (network .puppeteer url)).content,
              none, some (some true)⟩, article.contents.tail, ?_, by simp [applyUpdate]⟩
          simp [processCheerioBranch, ht, htp, replaceHead]
        | false =>
          refine ⟨applyUpdate (applyUpdate record ⟨none, some (some false), none⟩)
            ⟨none, none, some (some false)⟩, article.contents.tail, ?_, by simp [applyUpdate]⟩
          simp [processCheerioBranch, ht, htp, replaceHead]
  · have hc := needsPuppeteer_not_cheerio _ hp
    rw [processArticle_eq_puppeteer network article stats url hurl hlen hc hp]
    cases hhead : article.contents.head? with
    | none => rw [hhead] at hp; cases hp
    | some record =>
      have hch : record.scrapeStatusCheerio = some false := by
        rw [hhead] at hp
        simp [needsPuppeteerCheck] at hp
        exact hp.1
      cases htp : resultTruthy (scrapeArticleContentWithPuppeteer (network .puppeteer url)) with
      | true =>
        refine ⟨applyUpdate record
          ⟨(scrapeArticleContentWithPuppeteer (network .puppeteer url)).content,
            none, some (some true)⟩, article.contents.tail, ?_, by simp [applyUpdate, hch]⟩
        simp [processPuppeteerBranch, htp, replaceHead]
      | false =>
        refine ⟨applyUpdate record ⟨none, none, some (some false)⟩, article.contents.tail, ?_,
          by simp [applyUpdate, hch]⟩
        simp [processPuppeteerBranch, htp, replaceHead]

/-- Every article of a pass's output population is either an unselected input
article, unchanged, or the processed image of some selected input article. -/
lemma passArticles_mem (network : Network) (articles : List Article) :
    ∀ (stats : ScrapingStats) (a : Article), a ∈ (passArticles network articles stats).1 →
      (a ∈ articles ∧ articleNeedsScraping a = false) ∨
      ∃ b s0, b ∈ articles ∧ articleNeedsScraping b = true ∧
        a = (processArticle network b s0).1 := by
  induction articles with
  | nil => intro stats a ha; simp [passArticles] at ha
  | cons article rest ih =>
    intro stats a ha
    cases hsel : articleNeedsScraping article with
    | true =>
      rw [passArticles, if_pos hsel] at ha
      rcases List.mem_cons.mp ha with rfl | ha'
      · exact Or.inr ⟨article, stats, List.mem_cons_self _ _, hsel, rfl⟩
      · rcases ih _ a ha' with ⟨h1, h2⟩ | ⟨b, s0, hb, hbsel, hEq⟩
        · exact Or.inl ⟨List.mem_cons_of_mem _ h1, h2⟩
        · exact Or.inr ⟨b, s0, List.mem_cons_of_mem _ hb, hbsel, hEq⟩
    | false =>
      rw [passArticles, if_neg (by simp [hsel])] at ha
      rcases List.mem_cons.mp ha with rfl | ha'
      · exact Or.inl ⟨List.mem_cons_self _ _, hsel⟩
      · rcases ih _ a ha' with ⟨h1, h2⟩ | ⟨b, s0, hb, hbsel, hEq⟩
        · exact Or.inl ⟨List.mem_cons_of_mem _ h1, h2⟩
        · exact Or.inr ⟨b, s0, List.mem_cons_of_mem _ hb, hbsel, hEq⟩

/-- If every selected article of the population lacks a URL, the pass emits
no events at all: the skip path makes no network call and no write. -/
lemma passArticles_no_events (network : Network) (articles : List Article) :
    ∀ stats : ScrapingStats,
      (∀ a ∈ articles, articleNeedsScraping a = true → urlMissing a.url = true) →
      (passArticles network articles stats).2.1 = [] := by
  induction articles with
  | nil => intro stats _; rfl
  | cons article rest ih =>
    intro stats h
    cases hsel : articleNeedsScraping article with
    | true =>
      have hmiss := h article (List.mem_cons_self _ _) hsel
      rw [passArticles, if_pos hsel]
      simp only [processArticle, hmiss]
      simp [ih _ (fun a ha hs => h a (List.mem_cons_of_mem _ ha) hs)]
    | false =>
      rw [passArticles, if_neg (by simp [hsel])]
      simp [ih _ (fun a ha hs => h a (List.mem_cons_of_mem _ ha) hs)]

/-- Provenance of a run's output: an article that is still selected, has a
usable URL and carries a content row cannot have a null Cheerio status after
the run (the Cheerio branch always sets it; the Puppeteer branch requires it
to be `false`; an unselected article could not have had it null). -/
lemma runPass_output_cheerio_set (network : Network) (population : List Article) :
    ∀ a ∈ (runPass network population).population,
      articleNeedsScraping a = true → urlMissing a.url = false →
      ∀ r, a.contents.head? = some r → r.scrapeStatusCheerio ≠ none := by
  intro a ha hsel hmiss r hr
  unfold runPass at ha
  by_cases hflt : (population.filter articleNeedsScraping).length = 0
  · simp [hflt] at ha
    have hnil : population.filter articleNeedsScraping = [] :=
      List.length_eq_zero.mp hflt
    have hmem : a ∈ population.filter articleNeedsScraping :=
      List.mem_filter.mpr ⟨ha, hsel⟩
    rw [hnil] at hmem
    cases hmem
  · simp [hflt] at ha
    rcases passArticles_mem network population _ a ha with ⟨_, hba⟩ | ⟨b, s0, _, hbsel, hEq⟩
    · rw [hsel] at hba
      cases hba
    · cases hbmiss : urlMissing b.url with
      | true =>
        have ha_eq_b : a = b := by
          rw [hEq]
          simp [processArticle, hbmiss]
        rw [ha_eq_b, hbmiss] at hmiss
        cases hmiss
      | false =>
        obtain ⟨record, rest2, hcont, hne⟩ :=
          processArticle_sets_cheerio network b s0 hbsel hbmiss
        rw [← hEq] at hcont
        rw [hcont] at hr
        simp at hr
        rw [← hr]
        exact hne

/-- C3: when the first run fully resolved every article of the population
(lightweight or robust success, or both strategies failed), a second run over
that output performs zero extraction attempts and zero persistence writes —
it emits no events at all. -/
theorem second_run_performs_no_work (network1 network2 : Network) (population : List Article)
    (hresolved : ∀ a ∈ (runPass network1 population).population, resolvedRecord a = true) :
    (runPass network2 (runPass network1 population).population).events = [] := by
  have hkey : ∀ a ∈ (runPass network1 population).population,
      articleNeedsScraping a = true → urlMissing a.url = true := by
    intro a ha hsel
    cases hmiss : urlMissing a.url with
    | true => rfl
    | false =>
      exfalso
      have hres := hresolved a ha
      rcases (articleNeedsScraping_iff a).mp hsel with hnone | ⟨r, hr, hcase⟩
      · simp [resolvedRecord, hnone] at hres
      · rcases hcase with hcnone | ⟨hcf, hpn⟩
        · exact runPass_output_cheerio_set network1 population a ha hsel hmiss r hr hcnone
        · simp [resolvedRecord, hr, hcf, hpn] at hres
  have hmain : ∀ pop1 : List Article,
      (∀ a ∈ pop1, articleNeedsScraping a = true → urlMissing a.url = true) →
      (runPass network2 pop1).events = [] := by
    intro pop1 h
    unfold runPass
    by_cases hflt : (pop1.filter articleNeedsScraping).length = 0
    · simp [hflt]
    · simp [hflt]
      exact passArticles_no_events network2 pop1 _ h
  exact hmain _ hkey

/-- Witness for `second_run_performs_no_work`: a one-article population fully
resolved by a successful first run; the second run emits nothing. -/
theorem second_run_performs_no_work_witness :
    (∀ a ∈ (runPass networkAllOk [⟨1, some "u", []⟩]).population, resolvedRecord a = true) ∧
    (runPass networkAllOk (runPass networkAllOk [⟨1, some "u", []⟩]).population).events = [] :=
  ⟨by decide,
   second_run_performs_no_work networkAllOk networkAllOk [⟨1, some "u", []⟩] (by decide)⟩

/-- Observable top-level actions of `main` and its process wrapper. -/
inductive TopEvent where
  | passBody
  | logFatal (message : String)
  | dbClose
  | processExit (code : Nat)
  deriving DecidableEq, Repr

/-- How a JavaScript computation step ends: with a value, with a thrown
error, or with `process.exit(code)`.  In Node, `process.exit` terminates the
process as quickly as possible: it never returns to the caller, so pending
`finally` blocks of enclosing `try` statements do not run. -/
inductive JsOutcome (α : Type) where
  | value (a : α)
  | thrown (message : String)
  | exited (code : Nat)

/-- A computation together with the trace of top-level actions it performed. -/
def JsComp (α : Type) : Type := List TopEvent × JsOutcome α

/-- `try { body } catch (e) { handler e } finally { finalizer }` under
JavaScript semantics: a thrown body error runs the handler and then the
finalizer (unless the handler itself exits or rethrows first, in which case
the exit propagates immediately); an `exited` outcome anywhere propagates at
once, skipping the finalizer, because `process.exit` never returns. -/
def tryCatchFinally {α : Type} (body : JsComp α) (handler : String → JsComp α)
    (finalizer : JsComp Unit) : JsComp α :=
  match body with
  | (trace, JsOutcome.value a) =>
    match finalizer with
    | (ftrace, JsOutcome.value _) => (trace ++ ftrace, JsOutcome.value a)
    | (ftrace, JsOutcome.thrown m) => (trace ++ ftrace, JsOutcome.thrown m)
    | (ftrace, JsOutcome.exited c) => (trace ++ ftrace, JsOutcome.exited c)
  | (trace, JsOutcome.thrown message) =>
    match handler message with
    | (htrace, JsOutcome.value a) =>
      match finalizer with
      | (ftrace, JsOutcome.value _) => (trace ++ htrace ++ ftrace, JsOutcome.value a)
      | (ftrace, JsOutcome.thrown m) => (trace ++ htrace ++ ftrace, JsOutcome.thrown m)
      | (ftrace, JsOutcome.exited c) => (trace ++ htrace ++ ftrace, JsOutcome.exited c)
    | (htrace, JsOutcome.thrown m) =>
      match finalizer with
      | (ftrace, JsOutcome.value _) => (trace ++ htrace ++ ftrace, JsOutcome.thrown m)
      | (ftrace, JsOutcome.thrown m2) => (trace ++ htrace ++ ftrace, JsOutcome.thrown m2)
      | (ftrace, JsOutcome.exited c) => (trace ++ htrace ++ ftrace, JsOutcome.exited c)
    | (htrace, JsOutcome.exited c) => (trace ++ htrace, JsOutcome.exited c)
  | (trace, JsOutcome.exited code) => (trace, JsOutcome.exited code)

/-- The body of `main`'s `try` block: the whole pass, summarised by whether
it completed or threw (a persistence failure — `authenticate`, `create` or
`update` rejecting — surfaces here as `thrown`). -/
def mainBody (bodyOutcome : Except String Unit) : JsComp Unit :=
  match bodyOutcome with
  | Except.ok _ => ([TopEvent.passBody], JsOutcome.value ())
  | Except.error message => ([TopEvent.passBody], JsOutcome.thrown message)

/-- `main` of scraper.ts: `try { ...pass... } catch (error) {
console.error(...); process.exit(1); } finally { await sequelize.close(); }`.
The catch block calls `process.exit(1)` directly. -/
def mainModel (bodyOutcome : Except String Unit) : JsComp Unit :=
  tryCatchFinally (mainBody bodyOutcome)
    (fun message =>
      ([TopEvent.logFatal message, TopEvent.processExit 1], JsOutcome.exited 1))
    ([TopEvent.dbClose], JsOutcome.value ())

/-- The process wrapper
`main().then(() => process.exit(0)).catch(() => process.exit(1))`. -/
def runProcess (bodyOutcome : Except String Unit) : JsComp Unit :=
  match mainModel bodyOutcome with
  | (trace, JsOutcome.value _) => (trace ++ [TopEvent.processExit 0], JsOutcome.exited 0)
  | (trace, JsOutcome.thrown _) => (trace ++ [TopEvent.processExit 1], JsOutcome.exited 1)
  | (trace, JsOutcome.exited code) => (trace, JsOutcome.exited code)

/-- C5 fails on the code: on a normal or no-op run the `finally` block closes
the connection before the process exits, but on a fatal pass error the catch
block calls `process.exit(1)`, which terminates Node before the `finally`
block can run — `sequelize.close()` is skipped, so the connection is NOT
closed on that exit path, contrary to the claim. -/
theorem db_close_skipped_on_fatal_path :
    TopEvent.dbClose ∈ (runProcess (Except.ok ())).1 ∧
    (runProcess (Except.ok ())).1 =
      [TopEvent.passBody, TopEvent.dbClose, TopEvent.processExit 0] ∧
    TopEvent.dbClose ∉ (runProcess (Except.error "persistence write failed")).1 ∧
    (runProcess (Except.error "persistence write failed")).1 =
      [TopEvent.passBody, TopEvent.logFatal "persistence write failed",
        TopEvent.processExit 1] := by
  refine ⟨?_, rfl, ?_, rfl⟩ <;> decide
